import Mathlib

/-!
Verification of the cyverse-de dashboard-aggregator feed subsystem.

The embedding follows `src/index.js` and `src/configuration.js`.  The feed
module (`src/feed.js`) and the logging module (`src/logging.js`) are imported
by `index.js` but are not part of the sources at hand; where a claim depends
on their behavior, the corresponding definitions are modelled from the spec
(each such definition says so in its doc comment).
-/

namespace DashboardAggregator

/-- Feed kinds, the fixed closed set of variants from the spec's data model:
News, Event, Video, InstantLaunch. -/
inductive FeedKind
  | News
  | Event
  | Video
  | InstantLaunch
deriving DecidableEq

/-- Item, the normalized representation of one feed entry (spec data model):
title, absolute link, optional published timestamp (absent values sort last),
optional summary, and the owning feed's kind. -/
structure Item where
  title : String
  link : String
  publishedAt : Option Nat
  summary : String
  kind : FeedKind
deriving DecidableEq

/-- Sort key for recency: an absent `publishedAt` sorts last (key 0), a
present timestamp `t` has key `t + 1`. -/
def pubKey (i : Item) : Nat :=
  match i.publishedAt with
  | none => 0
  | some t => t + 1

/-- Boolean recency comparison: `laterOrEq a b` holds when `a` is at least as
recent as `b` (absent timestamps sort last). -/
def laterOrEq (a b : Item) : Bool :=
  pubKey b ≤ pubKey a

/-- A list of items is sorted by `publishedAt` descending (most recent
first), the invariant the spec states for every cached snapshot. -/
def SortedDesc (l : List Item) : Prop :=
  l.Pairwise (fun a b => laterOrEq a b = true)

instance (l : List Item) : Decidable (SortedDesc l) :=
  inferInstanceAs (Decidable (l.Pairwise _))

/-- The composite object assembled by `createFeeds` in `src/index.js`,
keyed by feed name. -/
structure Feeds where
  news : List Item
  events : List Item
  videos : List Item
deriving DecidableEq

/-- Embedding of `createFeeds` from `src/index.js` (lines 78-94) on the happy
path: each cache's current item list is truncated with `slice(0, limit)`,
which for a nonnegative `limit` is `List.take limit`, and the three truncated
lists are assembled into the composite object. -/
def createFeeds (newsItems eventsItems videosItems : List Item) (limit : Nat) : Feeds :=
  { news := newsItems.take limit
    events := eventsItems.take limit
    videos := videosItems.take limit }

/-- Embedding of `createFeeds` from `src/index.js` (lines 78-94) with
fallible cache reads.  The body awaits `newsFeed.getItems()`,
`eventsFeed.getItems()` and `videosFeed.getItems()` in sequence inside a
`try { ... } finally { span.end() }` with no `catch`: a rejection from any
read propagates out of `createFeeds` (the `finally` only ends the tracing
span and does not swallow the error). -/
def createFeedsE (n e v : Except String (List Item)) (limit : Nat) : Except String Feeds :=
  match n with
  | Except.error msg => Except.error msg
  | Except.ok ni =>
    match e with
    | Except.error msg => Except.error msg
    | Except.ok ei =>
      match v with
      | Except.error msg => Except.error msg
      | Except.ok vi => Except.ok (createFeeds ni ei vi limit)

/-- Response of the `/feeds` route in `src/index.js` (lines 226-238): either
a JSON body holding the composite feeds object, or a 500 JSON body with a
reason string. -/
inductive FeedsResponse
  | ok (feeds : Feeds)
  | serverError (reason : String)
deriving DecidableEq

/-- Embedding of the `/feeds` route handler from `src/index.js` (lines
226-238): it awaits `createFeeds(limit)` inside a `try`/`catch`; on success
it sends the feeds object with status 200, on an error `e` it sends status
500 with reason `"error getting feeds: " ++ e.message`. -/
def feedsRoute (n e v : Except String (List Item)) (limit : Nat) : FeedsResponse :=
  match createFeedsE n e v limit with
  | Except.ok f => FeedsResponse.ok f
  | Except.error msg => FeedsResponse.serverError ("error getting feeds: " ++ msg)

/-- The feed-related portion of the per-user dashboard response assembled by
the `/users/:username` handler in `src/index.js` (lines 118-190). -/
structure DashboardFeedsSection where
  instantLaunches : List Item
  feeds : Feeds
deriving DecidableEq

/-- Embedding of the feed-related part of the `/users/:username` handler
(`src/index.js` lines 126-127 and 181-182): `instantLaunches` is
`ilFeed.getItems()` with no slicing applied, while `feeds` is
`createFeeds(limit)`. -/
def usersDashboardFeeds (ilItems n e v : List Item) (limit : Nat) : DashboardFeedsSection :=
  { instantLaunches := ilItems
    feeds := createFeeds n e v limit }

/-- Modelled from the spec: `src/feed.js` is not among the sources, so the
FeedCache is taken from the spec's data model — it owns exactly one current
ordered sequence of items plus the timestamp of the last successful refresh,
starts empty before any successful refresh, and is mutated only by the
refresh operation. -/
structure FeedCache where
  items : List Item
  lastRefreshedAt : Option Nat
deriving DecidableEq

/-- Modelled from the spec: the initial FeedCache state before any successful
refresh — an empty snapshot and no last-refresh timestamp. -/
def FeedCache.init : FeedCache :=
  { items := [], lastRefreshedAt := none }

/-- Modelled from the spec: `getItems()` is a pure, total read of the cached
snapshot — non-blocking, never triggers a fetch, and cannot fail. -/
def getItems (c : FeedCache) : List Item :=
  c.items

/-- Modelled from the spec: `refresh()` invokes the bound fetcher (its
outcome is the `fetchResult` argument); on success it atomically replaces the
cached item list and updates the last-refresh timestamp, on failure it leaves
the existing cached snapshot untouched and surfaces the error to the
caller. -/
def refresh (c : FeedCache) (fetchResult : Except String (List Item)) (now : Nat) :
    FeedCache × Except String Unit :=
  match fetchResult with
  | Except.error e => (c, Except.error e)
  | Except.ok newItems => ({ items := newItems, lastRefreshedAt := some now }, Except.ok ())

/-- Runs a sequence of refresh attempts (each a fetch outcome paired with its
wall-clock time) against a cache, threading the state through `refresh`. -/
def runRefreshes (c : FeedCache) : List (Except String (List Item) × Nat) → FeedCache
  | [] => c
  | (r, t) :: rest => runRefreshes (refresh c r t).1 rest

/-- The payload of the last successful fetch outcome in a sequence of refresh
attempts, if any attempt succeeded. -/
def lastSuccess : List (Except String (List Item) × Nat) → Option (List Item)
  | [] => none
  | (r, _) :: rest =>
    match lastSuccess rest with
    | some v => some v
    | none =>
      match r with
      | Except.ok v => some v
      | Except.error _ => none

/-- Identifiers of the four feed instances constructed in `src/index.js`:
the two website feeds (news, events), the video feed, and the
instant-launches feed. -/
inductive FeedId
  | news
  | events
  | videos
  | instantLaunches
deriving DecidableEq

/-- One startup-time action on a feed instance, as they appear textually in
`src/index.js` lines 52-70: constructing the feed object (its cache starts
with the initial default content), calling `pullItems()`, or calling
`scheduleRefresh().then((f) => f.start())`. -/
inductive StartupAction
  | construct (f : FeedId)
  | pullItems (f : FeedId)
  | scheduleRefreshStart (f : FeedId)
deriving DecidableEq

/-- Transcription of the feed startup statements of `src/index.js` lines
52-70 in program order.  The `ilFeed.pullItems()` and
`ilFeed.scheduleRefresh().start()` calls are commented out in the source
(lines 69-70), so they do not appear here. -/
def startupActions : List StartupAction :=
  [StartupAction.construct FeedId.news,
   StartupAction.pullItems FeedId.news,
   StartupAction.scheduleRefreshStart FeedId.news,
   StartupAction.construct FeedId.events,
   StartupAction.pullItems FeedId.events,
   StartupAction.scheduleRefreshStart FeedId.events,
   StartupAction.construct FeedId.videos,
   StartupAction.pullItems FeedId.videos,
   StartupAction.scheduleRefreshStart FeedId.videos,
   StartupAction.construct FeedId.instantLaunches]

/-- Effect of one startup action on the per-feed cache contents, given the
items each feed's fetcher would produce: construction resets the cache to its
initial default (empty) content, a completed `pullItems` fills it with the
fetched items, and attaching/starting the scheduler does not touch the
cache. -/
def applyStartupAction (fetch : FeedId → List Item) (caches : FeedId → List Item) :
    StartupAction → FeedId → List Item
  | StartupAction.construct f => fun g => if g = f then [] else caches g
  | StartupAction.pullItems f => fun g => if g = f then fetch f else caches g
  | StartupAction.scheduleRefreshStart _ => caches

/-- Per-feed cache contents after the whole startup sequence of
`src/index.js` has run (with every pull treated as completed). -/
def runStartup (fetch : FeedId → List Item) : FeedId → List Item :=
  startupActions.foldl (applyStartupAction fetch) (fun _ => [])

/-- One event in an asynchronous execution of the startup code.  Modelled
from the spec's description of the current behavior ("fire-and-forget
scheduling via chained asynchronous calls": construct, pull, then
asynchronously attach and start a timer) together with `src/index.js`, where
`pullItems()` is invoked without `await` (lines 55, 61, 65): initiating a
pull, the pull's network retrieval completing, the scheduler starting, and an
incoming HTTP request being served. -/
inductive AsyncEvent
  | pullInitiated (f : FeedId)
  | pullCompleted (f : FeedId)
  | schedulerStarted (f : FeedId)
  | request
deriving DecidableEq

/-- Index of the first occurrence of an event in a trace. -/
def firstIdx (tr : List AsyncEvent) (e : AsyncEvent) : Option Nat :=
  tr.findIdx? (fun x => x == e)

/-- Event `a` happens before event `b` in the trace: `a` occurs, and either
`b` never occurs or `a`'s first occurrence is earlier. -/
def precedes (tr : List AsyncEvent) (a b : AsyncEvent) : Bool :=
  match firstIdx tr a, firstIdx tr b with
  | some i, some j => decide (i < j)
  | some _, none => true
  | none, _ => false

/-- Constraints that `src/index.js` places on one feed's events in any
execution: the pull is initiated and the scheduler started (lines 55-56,
61-62, 65-66, with `pullItems()` called before `scheduleRefresh()` in program
order), and a pull can only complete after it was initiated.  Nothing orders
the pull's completion before the scheduler start or before a request, because
the pull is not awaited. -/
def feedOrderOk (tr : List AsyncEvent) (f : FeedId) : Bool :=
  tr.contains (AsyncEvent.pullInitiated f) &&
  tr.contains (AsyncEvent.schedulerStarted f) &&
  precedes tr (AsyncEvent.pullInitiated f) (AsyncEvent.schedulerStarted f) &&
  (!tr.contains (AsyncEvent.pullCompleted f) ||
    precedes tr (AsyncEvent.pullInitiated f) (AsyncEvent.pullCompleted f))

/-- A trace is consistent with the startup code of `src/index.js` when each
of the three started feeds (news, events, videos) satisfies its per-feed
ordering constraints. -/
def programOrderOk (tr : List AsyncEvent) : Bool :=
  feedOrderOk tr FeedId.news && feedOrderOk tr FeedId.events && feedOrderOk tr FeedId.videos

/-- Snapshot of feed `f` observed by the first request in the trace, walking
the trace left to right: the cache holds the initial empty content until
`f`'s pull completes, after which it holds the fetched items.  Returns `none`
when the trace has no request. -/
def firstRequestObsAux (fetch : FeedId → List Item) (f : FeedId) (cur : List Item) :
    List AsyncEvent → Option (List Item)
  | [] => none
  | AsyncEvent.request :: _ => some cur
  | AsyncEvent.pullCompleted g :: rest =>
    firstRequestObsAux fetch f (if g = f then fetch f else cur) rest
  | _ :: rest => firstRequestObsAux fetch f cur rest

/-- Snapshot of feed `f` that the first request in the trace observes. -/
def firstRequestObservation (fetch : FeedId → List Item) (tr : List AsyncEvent) (f : FeedId) :
    Option (List Item) :=
  firstRequestObsAux fetch f [] tr

/-- Modelled from the spec: the Refresh Scheduler started at time `startAt`
with fixed period `period` fires its k-th refresh at `startAt + (k+1) *
period` — once per interval, beginning one full interval after start, not
immediately. -/
def scheduledRefreshTimes (startAt period k : Nat) : Nat :=
  startAt + (k + 1) * period

/-- Time of the first scheduled refresh after the scheduler starts. -/
def firstScheduledRefresh (startAt period : Nat) : Nat :=
  scheduledRefreshTimes startAt period 0

/-- Sample fetch environment used for concrete executions: every feed's
upstream yields one item. -/
def demoFetch : FeedId → List Item :=
  fun _ => [{ title := "item", link := "https://example.org/item",
              publishedAt := some 100, summary := "", kind := FeedKind.News }]

/-- Concrete asynchronous execution of the startup code: all three pulls are
initiated and all three schedulers started (in the program order of
`src/index.js`), a request arrives, and only then do the pull network calls
complete. -/
def earlyRequestTrace : List AsyncEvent :=
  [AsyncEvent.pullInitiated FeedId.news,
   AsyncEvent.pullInitiated FeedId.events,
   AsyncEvent.pullInitiated FeedId.videos,
   AsyncEvent.schedulerStarted FeedId.news,
   AsyncEvent.schedulerStarted FeedId.events,
   AsyncEvent.schedulerStarted FeedId.videos,
   AsyncEvent.request,
   AsyncEvent.pullCompleted FeedId.news,
   AsyncEvent.pullCompleted FeedId.events,
   AsyncEvent.pullCompleted FeedId.videos]

/-- One internal step of a refresh execution.  Modelled from the spec: a
refresh performs its network fetch without touching the cache, then replaces
the snapshot in a single atomic swap (immutable-snapshot swap, not in-place
mutation). -/
inductive MicroStep
  | fetchUpstream
  | swapSnapshot
deriving DecidableEq

/-- Effect of one refresh micro-step on the cached snapshot during a refresh
that will install `newSnap`: the fetch leaves the cache untouched, the swap
atomically installs the new snapshot. -/
def microStepCache (newSnap cache : List Item) : MicroStep → List Item
  | MicroStep.fetchUpstream => cache
  | MicroStep.swapSnapshot => newSnap

/-- The internal step sequence of one `refresh()` execution. -/
def refreshProgram : List MicroStep :=
  [MicroStep.fetchUpstream, MicroStep.swapSnapshot]

/-- Runs an interleaving of concurrent `getItems()` reads (`true`) with the
internal steps of one in-flight `refresh()` (`false`), returning the list of
snapshots the readers observed.  `prog` is the refresh's remaining internal
steps; refresh steps beyond the program's end are no-ops. -/
def interleaveObs (newSnap : List Item) :
    List Bool → List MicroStep → List Item → List (List Item)
  | [], _, _ => []
  | true :: sched, prog, cache => cache :: interleaveObs newSnap sched prog cache
  | false :: sched, [], cache => interleaveObs newSnap sched [] cache
  | false :: sched, s :: prog, cache =>
    interleaveObs newSnap sched prog (microStepCache newSnap cache s)

/-- Snapshots observed by concurrent readers racing one full `refresh()` that
replaces `old` with `newSnap`, under the reader/writer interleaving
`sched`. -/
def observations (old newSnap : List Item) (sched : List Bool) : List (List Item) :=
  interleaveObs newSnap sched refreshProgram old

/-- A JavaScript value stored under a configuration key: either `null` or an
ordinary (string) value.  Numeric settings are read with `parseInt` in
`src/configuration.js`; their numeric interpretation is irrelevant to the
claims, so values are kept as strings. -/
inductive JsVal
  | null
  | str (s : String)
deriving DecidableEq

/-- A configuration store: a key is either absent (`none`) or present with a
value (possibly `null`). -/
def ConfigMap : Type :=
  String → Option JsVal

/-- Embedding of node-config's `config.has(name)`: whether the key is defined
at all. -/
def hasKey (c : ConfigMap) (k : String) : Bool :=
  (c k).isSome

/-- Embedding of node-config's `config.get(name)`: returns the stored value,
and throws when the key is undefined (node-config raises an exception for
undefined keys; a key explicitly set to `null` is returned as `null`). -/
def getKey (c : ConfigMap) (k : String) : Except String JsVal :=
  match c k with
  | none => Except.error (k ++ " is not defined")
  | some v => Except.ok v

/-- Embedding of `validateConfigSetting` from `src/configuration.js` lines
13-17: throws when the key is absent or its value is `null`. -/
def validateConfigSetting (c : ConfigMap) (k : String) : Except String Unit :=
  if hasKey c k = false ∨ c k = some JsVal.null then
    Except.error (k ++ " must be set in the configuration")
  else
    Except.ok ()

/-- The keys checked by `validate` in `src/configuration.js` lines 22-33, in
source order. -/
def requiredKeys : List String :=
  ["db.user", "db.password", "db.host", "db.port", "db.database",
   "listen_port", "permissions.uri", "permissions.public_group",
   "apps.favorites_group_index", "apps.url"]

/-- Every key read with `config.get` while the module body of
`src/configuration.js` evaluates (lines 42-154), in source order.  Note that
`website.url`, `website.feeds.news`, `website.feeds.events` and `videos.url`
appear here but not in `requiredKeys`. -/
def moduleLoadKeys : List String :=
  ["db.user", "db.password", "db.host", "db.port", "db.database",
   "logging.level", "logging.label", "listen_port", "permissions.uri",
   "permissions.public_group", "website.url", "website.feeds.news",
   "website.feeds.events", "videos.url", "app-exposer.url",
   "app-exposer.user", "apps.favorites_group_index", "apps.url",
   "metadata.url", "metadata.featured_apps_attr", "metadata.featured_apps_value"]

/-- Runs `validateConfigSetting` on each key in order, stopping at the first
error — the body of `validate` in `src/configuration.js` lines 22-33. -/
def validateAll (c : ConfigMap) : List String → Except String Unit
  | [] => Except.ok ()
  | k :: rest =>
    match validateConfigSetting c k with
    | Except.error e => Except.error e
    | Except.ok _ => validateAll c rest

/-- Reads each key with `config.get` in order, stopping at the first
undefined key — the `export const ... = config.get(...)` statements of the
module body. -/
def getAllSettings (c : ConfigMap) : List String → Except String Unit
  | [] => Except.ok ()
  | k :: rest =>
    match getKey c k with
    | Except.error e => Except.error e
    | Except.ok _ => getAllSettings c rest

/-- Evaluation of the `src/configuration.js` module at process start:
`validate()` runs first (line 35), then every exported setting is read with
`config.get`.  An error here aborts the process before it starts, because
`src/index.js` imports this module before doing anything else. -/
def loadConfigurationModule (c : ConfigMap) : Except String Unit :=
  match validateAll c requiredKeys with
  | Except.error e => Except.error e
  | Except.ok _ => getAllSettings c moduleLoadKeys

/-- A configuration in which every key the module reads is present with a
non-null value, except `website.url`, which is present but `null`. -/
def nullWebsiteConfig : ConfigMap :=
  fun k =>
    if k = "website.url" then some JsVal.null
    else if moduleLoadKeys.contains k then some (JsVal.str "value")
    else none

/-- A configuration in which `db.user` is absent and every other key the
module reads is present with a non-null value. -/
def missingDbUserConfig : ConfigMap :=
  fun k =>
    if k = "db.user" then none
    else if moduleLoadKeys.contains k then some (JsVal.str "value")
    else none

/-- One row of the `version` table as used by the health check: only the
`version` column matters. -/
structure Row where
  version : String
deriving DecidableEq

/-- The awaited value of `db.query(...).catch((e) => logger.error(e))` in the
health-check handler: on success, the pg result object carrying the row list;
on failure, the return value of `logger.error(e)`.  Modelled from the spec
for the failure side (`src/logging.js` is not among the sources): the logging
capability's `error` method returns the logger object itself (as winston
loggers do), an object with no `rows` property. -/
inductive AwaitedQueryValue
  | resultObject (rows : List Row)
  | loggerObject

/-- The `rows` binding produced by `const { rows } = ...`: the row list when
the awaited value is a pg result object, and `undefined` (here `none`) when
it is the logger object, which has no `rows` property.  Destructuring an
object never throws, whatever its properties. -/
def destructuredRows : AwaitedQueryValue → Option (List Row)
  | AwaitedQueryValue.resultObject rows => some rows
  | AwaitedQueryValue.loggerObject => none

/-- Truthiness test `!rows` from the handler: `undefined` is falsy, while any
array — including the empty array — is an object and hence truthy. -/
def rowsFalsy : Option (List Row) → Bool
  | none => true
  | some _ => false

/-- Outcome of one invocation of the `/healthz` handler: an HTTP response, or
an exception escaping the `async` handler (which express 4 does not catch, so
it becomes an unhandled promise rejection and no response is sent). -/
inductive HealthzOutcome
  | response (status : Nat) (body : String)
  | unhandledRejection (message : String)
deriving DecidableEq

/-- Embedding of the `/healthz` handler from `src/index.js` lines 99-110.
`queryResult` is the outcome of the database query: a rejection is swallowed
by the `.catch`, whose return value (the logger object) is then destructured;
otherwise the pg result object is destructured.  If `!rows`, the handler
sends 500 "no rows returned from database"; otherwise it evaluates
`rows[0].version`, which throws a TypeError when `rows` is the empty array
(`rows[0]` is `undefined`). -/
def healthz (queryResult : Except String (List Row)) : HealthzOutcome :=
  match destructuredRows
      (match queryResult with
       | Except.error _ => AwaitedQueryValue.loggerObject
       | Except.ok rows => AwaitedQueryValue.resultObject rows) with
  | rows =>
    if rowsFalsy rows then
      HealthzOutcome.response 500 "no rows returned from database"
    else
      match rows with
      | some (r :: _) => HealthzOutcome.response 200 ("version " ++ r.version)
      | some [] =>
        HealthzOutcome.unhandledRejection
          "TypeError: cannot read property version of undefined"
      | none => HealthzOutcome.unhandledRejection "unreachable"

/-- Builds a news item with the given published timestamp, for concrete
executions. -/
def mkNewsItem (t : Nat) : Item :=
  { title := "news item", link := "https://example.org/news", publishedAt := some t,
    summary := "", kind := FeedKind.News }

/-- A concrete cached news snapshot holding 10 items sorted by `publishedAt`
descending. -/
def demoNews : List Item :=
  [mkNewsItem 10, mkNewsItem 9, mkNewsItem 8, mkNewsItem 7, mkNewsItem 6,
   mkNewsItem 5, mkNewsItem 4, mkNewsItem 3, mkNewsItem 2, mkNewsItem 1]

/-- A concrete pre-refresh snapshot. -/
def demoOldSnap : List Item :=
  [mkNewsItem 1]

/-- A concrete post-refresh snapshot. -/
def demoNewSnap : List Item :=
  [mkNewsItem 2]

/-- Claim C1: if `refresh()` fails, the cached snapshot is unchanged —
`getItems()` after the failed refresh returns exactly the same sequence as
before, the cache state (including the last-refresh timestamp) is untouched,
and the error is surfaced to the caller. -/
theorem refresh_failure_preserves_snapshot (c : FeedCache) (e : String) (now : Nat) :
    getItems (refresh c (Except.error e) now).1 = getItems c ∧
    (refresh c (Except.error e) now).1 = c ∧
    (refresh c (Except.error e) now).2 = Except.error e :=
  ⟨rfl, rfl, rfl⟩

/-- Threading any sequence of refresh attempts through a cache leaves
`getItems` equal to the payload of the last successful attempt, or to the
starting snapshot when no attempt succeeded. -/
theorem runRefreshes_lastSuccess (rs : List (Except String (List Item) × Nat))
    (c : FeedCache) :
    getItems (runRefreshes c rs) = (lastSuccess rs).getD (getItems c) := by
  induction rs generalizing c with
  | nil => rfl
  | cons p rest ih =>
    obtain ⟨r, t⟩ := p
    cases r with
    | error e =>
      have h1 : getItems (runRefreshes c ((Except.error e, t) :: rest))
          = (lastSuccess rest).getD (getItems c) := by
        simpa [runRefreshes, refresh] using ih c
      rw [h1]
      cases h : lastSuccess rest <;> simp [lastSuccess, h]
    | ok v =>
      have h1 : getItems (runRefreshes c ((Except.ok v, t) :: rest))
          = (lastSuccess rest).getD v := by
        simpa [runRefreshes, refresh, getItems] using
          ih { items := v, lastRefreshedAt := some t }
      rw [h1]
      cases h : lastSuccess rest <;> simp [lastSuccess, h]

/-- Claim C8: `getItems()` is a pure total read — it cannot fail and never
fetches; on a cache that has seen no successful refresh it returns the empty
sequence, and after any sequence of refresh attempts it returns the payload
of the last successful one (or the empty sequence if none succeeded). -/
theorem getItems_total_last_success :
    getItems FeedCache.init = [] ∧
    (∀ c : FeedCache, getItems c = c.items) ∧
    ∀ rs : List (Except String (List Item) × Nat),
      getItems (runRefreshes FeedCache.init rs) = (lastSuccess rs).getD [] := by
  refine ⟨rfl, fun c => rfl, fun rs => ?_⟩
  simpa [getItems, FeedCache.init] using runRefreshes_lastSuccess rs FeedCache.init

/-- Claim C2: for every positive limit, the aggregation truncates each feed's
snapshot independently to its first `limit` items; in particular with
`limit = 3` over a news cache holding 10 items sorted by recency, exactly 3
items are returned — the 3 most recent, still in descending time order, each
at least as recent as every item left out. -/
theorem createFeeds_truncates_each_feed (n e v : List Item) (limit : Nat)
    (hpos : 0 < limit) :
    (createFeeds n e v limit).news = n.take limit ∧
    (createFeeds n e v limit).events = e.take limit ∧
    (createFeeds n e v limit).videos = v.take limit ∧
    (n.length = 10 → SortedDesc n →
      (createFeeds n e v 3).news.length = 3 ∧
      (createFeeds n e v 3).news = n.take 3 ∧
      SortedDesc (createFeeds n e v 3).news ∧
      ∀ x ∈ (createFeeds n e v 3).news, ∀ y ∈ n.drop 3, laterOrEq x y = true) := by
  refine ⟨rfl, rfl, rfl, ?_⟩
  intro hlen hsorted
  refine ⟨?_, rfl, ?_, ?_⟩
  · simp [createFeeds, hlen]
  · exact hsorted.sublist (List.take_sublist 3 n)
  · intro x hx y hy
    have h := hsorted
    rw [show n = n.take 3 ++ n.drop 3 from (List.take_append_drop 3 n).symm] at h
    exact (List.pairwise_append.mp h).2.2 x hx y hy

/-- Witness for C2 at a concrete input: a 10-item sorted news cache with
limit 3 yields exactly the first 3 items. -/
theorem createFeeds_truncates_each_feed_witness :
    (createFeeds demoNews [] [] 3).news = demoNews.take 3 ∧
    (createFeeds demoNews [] [] 3).news.length = 3 :=
  ⟨(createFeeds_truncates_each_feed demoNews [] [] 3 (by decide)).1,
   ((createFeeds_truncates_each_feed demoNews [] [] 3 (by decide)).2.2.2
      (by decide) (by decide)).1⟩

/-- Counterexample to claim C3: when the news cache read rejects while the
events and videos reads succeed with non-empty snapshots, `createFeeds`
rejects as a whole and the feeds route answers with a 500 error body — the
response contains none of the successful feeds' sections. -/
theorem createFeeds_read_failure_cex :
    createFeedsE (Except.error "timeout") (Except.ok demoNews) (Except.ok demoNews) 10
      = Except.error "timeout" ∧
    feedsRoute (Except.error "timeout") (Except.ok demoNews) (Except.ok demoNews) 10
      = FeedsResponse.serverError "error getting feeds: timeout" :=
  ⟨rfl, rfl⟩

/-- Claim C3 as amended: a failure reading any single feed cache propagates
out of `createFeeds` unchanged — the entire aggregation fails and the feeds
route returns a 500 error response with no feed sections; per-source
isolation is not implemented. -/
theorem createFeeds_propagates_read_failure (err : String) (nl el vl : List Item)
    (limit : Nat) :
    createFeedsE (Except.error err) (Except.ok el) (Except.ok vl) limit
      = Except.error err ∧
    createFeedsE (Except.ok nl) (Except.error err) (Except.ok vl) limit
      = Except.error err ∧
    createFeedsE (Except.ok nl) (Except.ok el) (Except.error err) limit
      = Except.error err ∧
    feedsRoute (Except.error err) (Except.ok el) (Except.ok vl) limit
      = FeedsResponse.serverError ("error getting feeds: " ++ err) :=
  ⟨rfl, rfl, rfl, rfl⟩

/-- Claim C4: in the per-user dashboard response, the instant-launches value
is the full current snapshot of its cache — its length equals the cache's
length and it does not depend on the numeric limit applied to the other
feeds. -/
theorem instantLaunches_full_snapshot (il n e v : List Item) (limit : Nat) :
    (usersDashboardFeeds il n e v limit).instantLaunches = il ∧
    (usersDashboardFeeds il n e v limit).instantLaunches.length = il.length ∧
    ∀ limit2 : Nat,
      (usersDashboardFeeds il n e v limit).instantLaunches
        = (usersDashboardFeeds il n e v limit2).instantLaunches :=
  ⟨rfl, rfl, fun _ => rfl⟩

/-- Claim C5: the instant-launches feed is constructed during startup, but
its `pullItems` and its `scheduleRefresh().start()` never appear in the
startup sequence (they are commented out), so after startup its cache holds
only its initial default content regardless of what its fetcher would
return. -/
theorem ilFeed_never_started :
    StartupAction.construct FeedId.instantLaunches ∈ startupActions ∧
    StartupAction.pullItems FeedId.instantLaunches ∉ startupActions ∧
    StartupAction.scheduleRefreshStart FeedId.instantLaunches ∉ startupActions ∧
    ∀ fetch : FeedId → List Item, runStartup fetch FeedId.instantLaunches = [] :=
  ⟨by decide, by decide, by decide, fun fetch => rfl⟩

/-- In any trace satisfying a feed's ordering constraints, the pull is
initiated before the scheduler starts. -/
theorem feedOrderOk_pull_before_start (tr : List AsyncEvent) (f : FeedId)
    (h : feedOrderOk tr f = true) :
    precedes tr (AsyncEvent.pullInitiated f) (AsyncEvent.schedulerStarted f) = true := by
  simp only [feedOrderOk, Bool.and_eq_true] at h
  exact h.1.2

/-- Counterexample to claim C6: a trace consistent with the startup code of
`src/index.js` in which the news scheduler starts before the news pull
completes, and the first request observes an empty news cache even though
the fetch returns a non-empty list. -/
theorem startup_async_pull_cex :
    programOrderOk earlyRequestTrace = true ∧
    precedes earlyRequestTrace (AsyncEvent.schedulerStarted FeedId.news)
      (AsyncEvent.pullCompleted FeedId.news) = true ∧
    firstRequestObservation demoFetch earlyRequestTrace FeedId.news = some [] ∧
    demoFetch FeedId.news ≠ [] :=
  ⟨by decide, by decide, by decide, by decide⟩

/-- Claim C6 as amended: each of the news, events, and videos feeds initiates
its initial pull before its scheduler is started, and the first scheduled
refresh fires one full interval after start (not immediately); but the pull
is asynchronous fire-and-forget — its completion is not ordered before the
scheduler start or the first request, and there are consistent executions in
which the first request observes an empty cache. -/
theorem startup_pull_fire_and_forget (tr : List AsyncEvent)
    (hv : programOrderOk tr = true) (startAt period : Nat) (hp : 0 < period) :
    precedes tr (AsyncEvent.pullInitiated FeedId.news)
      (AsyncEvent.schedulerStarted FeedId.news) = true ∧
    precedes tr (AsyncEvent.pullInitiated FeedId.events)
      (AsyncEvent.schedulerStarted FeedId.events) = true ∧
    precedes tr (AsyncEvent.pullInitiated FeedId.videos)
      (AsyncEvent.schedulerStarted FeedId.videos) = true ∧
    firstScheduledRefresh startAt period = startAt + period ∧
    startAt < firstScheduledRefresh startAt period ∧
    ∃ tr0 : List AsyncEvent, programOrderOk tr0 = true ∧
      firstRequestObservation demoFetch tr0 FeedId.news = some [] ∧
      demoFetch FeedId.news ≠ [] := by
  simp only [programOrderOk, Bool.and_eq_true] at hv
  refine ⟨feedOrderOk_pull_before_start tr FeedId.news hv.1.1,
    feedOrderOk_pull_before_start tr FeedId.events hv.1.2,
    feedOrderOk_pull_before_start tr FeedId.videos hv.2,
    by simp [firstScheduledRefresh, scheduledRefreshTimes],
    by simp [firstScheduledRefresh, scheduledRefreshTimes]; omega,
    earlyRequestTrace, by decide, by decide, by decide⟩

/-- Witness for the amended C6 at a concrete trace and period. -/
theorem startup_pull_fire_and_forget_witness :
    precedes earlyRequestTrace (AsyncEvent.pullInitiated FeedId.news)
      (AsyncEvent.schedulerStarted FeedId.news) = true ∧
    firstScheduledRefresh 0 900 = 0 + 900 :=
  ⟨(startup_pull_fire_and_forget earlyRequestTrace (by decide) 0 900 (by decide)).1,
   (startup_pull_fire_and_forget earlyRequestTrace (by decide) 0 900
      (by decide)).2.2.2.1⟩

/-- When some key in the list is absent or null, running the validation over
that list fails. -/
theorem validateAll_error_of_bad (c : ConfigMap) (k : String) (ks : List String)
    (hk : k ∈ ks) (hbad : c k = none ∨ c k = some JsVal.null) :
    (validateAll c ks).isOk = false := by
  induction ks with
  | nil => cases hk
  | cons a rest ih =>
    by_cases hka : k = a
    · subst hka
      have hset : validateConfigSetting c k
          = Except.error (k ++ " must be set in the configuration") := by
        unfold validateConfigSetting
        rw [if_pos]
        rcases hbad with h | h
        · exact Or.inl (by simp [hasKey, h])
        · exact Or.inr h
      simp [validateAll, hset, Except.isOk, Except.toBool]
    · rcases List.mem_cons.mp hk with h | h
      · exact absurd h hka
      · cases hval : validateConfigSetting c a with
        | error e => simp [validateAll, hval, Except.isOk, Except.toBool]
        | ok u =>
          have := ih h
          simpa [validateAll, hval] using this

/-- When some key in the list is absent, reading every key in the list with
`config.get` fails. -/
theorem getAllSettings_error_of_absent (c : ConfigMap) (k : String) (ks : List String)
    (hk : k ∈ ks) (habs : c k = none) :
    (getAllSettings c ks).isOk = false := by
  induction ks with
  | nil => cases hk
  | cons a rest ih =>
    by_cases hka : k = a
    · subst hka
      have hget : getKey c k = Except.error (k ++ " is not defined") := by
        simp [getKey, habs]
      simp [getAllSettings, hget, Except.isOk, Except.toBool]
    · rcases List.mem_cons.mp hk with h | h
      · exact absurd h hka
      · cases hval : getKey c a with
        | error e => simp [getAllSettings, hval, Except.isOk, Except.toBool]
        | ok u =>
          have := ih h
          simpa [getAllSettings, hval] using this

/-- Counterexample to claim C7: a configuration whose `website.url` — the
base URL of the website feed source — is present but null passes startup
unchallenged: module evaluation succeeds, so the process starts. -/
theorem config_null_feed_setting_cex :
    loadConfigurationModule nullWebsiteConfig = Except.ok () ∧
    nullWebsiteConfig "website.url" = some JsVal.null :=
  ⟨rfl, rfl⟩

/-- Claim C7 as amended: the ten keys listed in `validate` are checked
eagerly at process start and an absent-or-null value among them prevents
startup; every key the configuration module reads also fails startup when
absent (the config reader throws on undefined keys); but the feed-source
settings are not among the validated keys — `website.url` set to null is
accepted and the process starts. -/
theorem config_validation_scope (c : ConfigMap) :
    (∀ k ∈ requiredKeys, (c k = none ∨ c k = some JsVal.null) →
      (loadConfigurationModule c).isOk = false) ∧
    (∀ k ∈ moduleLoadKeys, c k = none → (loadConfigurationModule c).isOk = false) ∧
    "website.url" ∈ moduleLoadKeys ∧
    "website.url" ∉ requiredKeys ∧
    loadConfigurationModule nullWebsiteConfig = Except.ok () ∧
    nullWebsiteConfig "website.url" = some JsVal.null := by
  refine ⟨?_, ?_, by decide, by decide, rfl, rfl⟩
  · intro k hk hbad
    cases hval : validateAll c requiredKeys with
    | error e => simp [loadConfigurationModule, hval, Except.isOk, Except.toBool]
    | ok u =>
      have := validateAll_error_of_bad c k requiredKeys hk hbad
      rw [hval] at this
      simp [Except.isOk, Except.toBool] at this
  · intro k hk habs
    cases hval : validateAll c requiredKeys with
    | error e => simp [loadConfigurationModule, hval, Except.isOk, Except.toBool]
    | ok u =>
      have := getAllSettings_error_of_absent c k moduleLoadKeys hk habs
      simpa [loadConfigurationModule, hval] using this

/-- Witness for the amended C7 at a concrete configuration missing
`db.user`. -/
theorem config_validation_scope_witness :
    (loadConfigurationModule missingDbUserConfig).isOk = false :=
  (config_validation_scope missingDbUserConfig).1 "db.user" (by decide) (Or.inl rfl)

/-- Any reader racing the refresh micro-steps observes a cache that is
either the old or the new snapshot, provided the starting cache is. -/
theorem interleaveObs_mem (old newSnap : List Item) (sched : List Bool) :
    ∀ (prog : List MicroStep) (cache : List Item),
      (cache = old ∨ cache = newSnap) →
      ∀ o ∈ interleaveObs newSnap sched prog cache, o = old ∨ o = newSnap := by
  induction sched with
  | nil =>
    intro prog cache _ o ho
    simp [interleaveObs] at ho
  | cons b rest ih =>
    intro prog cache hc o ho
    cases b with
    | true =>
      simp only [interleaveObs, List.mem_cons] at ho
      rcases ho with h | h
      · rw [h]; exact hc
      · exact ih prog cache hc o h
    | false =>
      cases prog with
      | nil =>
        simp only [interleaveObs] at ho
        exact ih [] cache hc o ho
      | cons s prog2 =>
        simp only [interleaveObs] at ho
        cases s with
        | fetchUpstream =>
          exact ih prog2 cache hc o (by simpa [microStepCache] using ho)
        | swapSnapshot =>
          exact ih prog2 newSnap (Or.inr rfl) o (by simpa [microStepCache] using ho)

/-- Claim C9: a `getItems()` read concurrent with an in-flight `refresh()`
observes either the complete pre-refresh snapshot or the complete
post-refresh snapshot, for every interleaving of readers with the refresh's
internal steps — never a torn or mixed list. -/
theorem getItems_atomic_snapshot (old newSnap : List Item) (sched : List Bool)
    (o : List Item) (ho : o ∈ observations old newSnap sched) :
    o = old ∨ o = newSnap :=
  interleaveObs_mem old newSnap sched refreshProgram old (Or.inl rfl) o ho

/-- Witness for C9 at a concrete interleaving: one read before the swap and
one after. -/
theorem getItems_atomic_snapshot_witness :
    demoOldSnap = demoOldSnap ∨ demoOldSnap = demoNewSnap :=
  getItems_atomic_snapshot demoOldSnap demoNewSnap [true, false, false, true]
    demoOldSnap (by decide)

/-- Counterexample to claim C10: when the version query succeeds but yields
zero rows, the handler does not answer 500 "no rows returned from database" —
the empty array is truthy, so `rows[0].version` throws a TypeError that
escapes the handler as an unhandled rejection. -/
theorem healthz_empty_rows_cex :
    healthz (Except.ok []) = HealthzOutcome.unhandledRejection
      "TypeError: cannot read property version of undefined" ∧
    healthz (Except.ok []) ≠ HealthzOutcome.response 500 "no rows returned from database" :=
  ⟨rfl, by decide⟩

/-- Claim C10 as amended: a failed query is swallowed by the catch and
answered with 500 "no rows returned from database" (no unhandled rejection on
that path); a query yielding at least one row is answered with 200 and the
most recently applied version; but a query succeeding with zero rows throws a
TypeError that escapes the handler as an unhandled rejection, sending no
response. -/
theorem healthz_behavior (e : String) (r : Row) (rest : List Row) :
    healthz (Except.error e) = HealthzOutcome.response 500 "no rows returned from database" ∧
    healthz (Except.ok (r :: rest)) = HealthzOutcome.response 200 ("version " ++ r.version) ∧
    healthz (Except.ok []) = HealthzOutcome.unhandledRejection
      "TypeError: cannot read property version of undefined" :=
  ⟨rfl, rfl, rfl⟩

end DashboardAggregator
